import Mathlib

/-!
Shallow embedding of the study-assistant bot (`src/bot2.py`) and proofs
about its conversational state machine, chunking, note selection, photo
handling, the `/start` upsert and the inactivity scheduler.

Texts are modelled as `List Char`.  External collaborators (the message
transport, the Wikipedia/DuckDuckGo/Wolfram providers, SQLite, the file
system) are modelled through oracle records that fix the outcome of each
external call in a handler run; the handler bodies themselves are
translated line by line from the source.
-/

namespace StudyBot

/-- Texts (Python `str`) are lists of characters. -/
abbrev Text := List Char

/-! ### Basic text helpers (Python `str` operations used by the source) -/

/-- Bool test that `p` starts the list `s` (used to model Python substring
search). -/
def startsWith : Text → Text → Bool
  | [], _ => true
  | _ :: _, [] => false
  | a :: as, b :: bs => a == b && startsWith as bs

/-- Embedding of Python's `needle in hay` substring containment test
(used at `src/bot2.py:294` to classify OCR results). -/
def containsSub (needle : Text) : Text → Bool
  | [] => startsWith needle []
  | c :: rest => startsWith needle (c :: rest) || containsSub needle rest

/-- The whitespace characters stripped by Python's `str.strip()` (ASCII
fragment of the Unicode whitespace class). -/
def pySpace (c : Char) : Bool :=
  c == ' ' || c == '\t' || c == '\n' || c == '\r' || c == '\x0b' || c == '\x0c'

/-- Embedding of Python's `str.strip()`: drop whitespace at both ends. -/
def pyStrip (s : Text) : Text :=
  ((s.dropWhile pySpace).reverse.dropWhile pySpace).reverse

/-- ASCII decimal digit test. -/
def isDigitB (c : Char) : Bool := '0' ≤ c && c ≤ '9'

/-- Value of a nonempty all-digit string, `none` otherwise. -/
def digitsVal (ds : Text) : Option Nat :=
  if ds ≠ [] ∧ ds.all isDigitB then
    some (ds.foldl (fun a c => a * 10 + (c.toNat - '0'.toNat)) 0)
  else none

/-- Embedding of Python's `int(str)` conversion as used at
`src/bot2.py:357` (surrounding whitespace, an optional sign, then ASCII
decimal digits; Unicode digits and underscore separators are outside the
scope of this embedding).  `none` models the `ValueError`. -/
def parseIntPy (s : Text) : Option Int :=
  match pyStrip s with
  | '-' :: rest => (digitsVal rest).map (fun n => -(n : Int))
  | '+' :: rest => (digitsVal rest).map (fun n => (n : Int))
  | rest => (digitsVal rest).map (fun n => (n : Int))

/-! ### Chunking (`for i in range(0, len(s), 4000): answer(s[i:i+4000])`,
`src/bot2.py:342` and `src/bot2.py:367`) -/

/-- Fuel-indexed chunk split; the fuel is an upper bound on the length,
so the `0, s` row with `s` nonempty is never reached from `chunkText`. -/
def chunkAux : Nat → Text → List Text
  | _, [] => []
  | 0, s => [s]
  | fuel + 1, s => s.take 4000 :: chunkAux fuel (s.drop 4000)

/-- Embedding of the source's chunking loop: successive 4000-character
slices of `s`, in order. -/
def chunkText (s : Text) : List Text := chunkAux s.length s

/-- Embedding of the send logic at `src/bot2.py:341`–`345`: bodies over
4000 characters are sent as chunks, anything else as one message. -/
def sendLong (s : Text) : List Text :=
  if s.length > 4000 then chunkText s else [s]

/-! ### Data model -/

/-- The pending-action tags stored in `user_states` (`src/bot2.py:53`). -/
inductive Tag
  | summary
  | search
  | photo
  | show_notes_list
  | calculator
deriving DecidableEq

/-- A row of the `summaries` table (user_id, topic, content); the list
order of the table models the AUTOINCREMENT insertion order. -/
structure Note where
  user_id : Nat
  topic : Text
  content : Text
deriving DecidableEq

/-- The mutable state of the bot process: the in-memory `user_states`
mapping, the `summaries` table and the `users` table (`last_active`
modelled as seconds, `none` for SQL NULL). -/
structure BotState where
  states : Nat → Option Tag
  notes : List Note
  users : List (Nat × Option Int)

/-- Embedding of `user_states[user_id] = tag`. -/
def setState (f : Nat → Option Tag) (uid : Nat) (t : Tag) : Nat → Option Tag :=
  fun u => if u = uid then some t else f u

/-- Embedding of `user_states.pop(user_id, None)`. -/
def popState (f : Nat → Option Tag) (uid : Nat) : Nat → Option Tag :=
  fun u => if u = uid then none else f u

/-- Embedding of `SELECT ... FROM summaries WHERE user_id = ?` in insertion order. -/
def notesFor (uid : Nat) (notes : List Note) : List Note :=
  notes.filter (fun n => decide (n.user_id = uid))

/-- Calls made to the external providers during one handler run. -/
inductive ProviderCall
  | summaryCall (topic : Text)
  | searchCall (q : Text)
  | mathCall (e : Text)
  | ocrCall
deriving DecidableEq

/-- Result of one handler run: the new bot state, the replies sent in
order, the provider calls made, and whether `os.remove` on the temporary
photo file was executed during the run. -/
structure StepResult where
  st : BotState
  replies : List Text
  calls : List ProviderCall
  fileRemoved : Bool

/-! ### Message constants (the literal reply strings of the source) -/

/-- Reply string at `src/bot2.py:325`. -/
def hintMenuMsg : Text := "ℹ️ Пожалуйста, выберите действие из меню.".toList

/-- Reply string at `src/bot2.py:386`. -/
def genericErrorMsg : Text :=
  "⚠️ Произошла непредвиденная ошибка. Попробуйте позже.".toList

/-- Reply string at `src/bot2.py:330`. -/
def summaryWaitMsg : Text := "⏳ Создаю конспект...".toList

/-- Reply string at `src/bot2.py:350`. -/
def searchWaitMsg : Text := "⏳ Ищу информацию...".toList

/-- Reply string at `src/bot2.py:379`. -/
def calcWaitMsg : Text := "⏳ Решаю задачу...".toList

/-- Reply string at `src/bot2.py:372`. -/
def invalidIndexMsg : Text := "❌ Неверный номер конспекта.".toList

/-- Reply string at `src/bot2.py:374`. -/
def enterNumberMsg : Text := "❌ Пожалуйста, введите номер конспекта.".toList

/-- Reply string at `src/bot2.py:370`: the single reply for a short note. -/
def noteHeaderMsg (topic content : Text) : Text :=
  ("📘 Конспект: ".toList ++ topic ++ "\n\n".toList) ++ content

/-- Reply string at `src/bot2.py:254`. -/
def noNotesMsg : Text := "📭 У вас пока нет сохраненных конспектов.".toList

/-- Reply string at `src/bot2.py:265`. -/
def notesLoadErrorMsg : Text :=
  "⚠️ Произошла ошибка при загрузке конспектов.".toList

/-- Reply string at `src/bot2.py:283`. -/
def processingPhotoMsg : Text := "⏳ Обрабатываю фото...".toList

/-- Reply string at `src/bot2.py:279`. -/
def photoStateHintMsg : Text :=
  "ℹ️ Пожалуйста, сначала выберите действие '🖼️ Решить по фото' в меню.".toList

/-- Reply string at `src/bot2.py:314`. -/
def photoGenericErrorMsg : Text :=
  "⚠️ Произошла ошибка при обработке фото. Попробуйте еще раз.".toList

/-- Topic of the note persisted on the photo path (`src/bot2.py:303`). -/
def photoTopic : Text := "Задача с фото".toList

/-- Reply string at `src/bot2.py:297`. -/
def recognizedTextMsg (text : Text) : Text :=
  "📖 Распознанный текст:\n".toList ++ text ++ "\n\n⏳ Ищу решение...".toList

/-- The substring the photo handler searches for to classify the OCR
result as an error (`src/bot2.py:294`). -/
def oshibka : Text := "Ошибка".toList

/-- Reply string at `src/bot2.py:124`–`125`. -/
def greetingMsg : Text :=
  ("📚 Привет! Я твой бесплатный учебный помощник.\n" ++ "Выбери действие:").toList

/-- Reply string at `src/bot2.py:406`. -/
def reminderMsg : Text :=
  "📚 Не забывай учиться! Я всегда готов помочь с конспектами и задачами.".toList

/-! ### OCR provider (`ocr_from_photo`, `src/bot2.py:181`–`199`) -/

/-- Outcome of the call to the OCR engine
(`pytesseract.image_to_string`): a raw text, or one of the exception
classes caught at `src/bot2.py:194`. -/
inductive OcrOutcome
  | ok (raw : Text)
  | fileNotFound
  | badImage
deriving DecidableEq

/-- Reply string at `src/bot2.py:196`. -/
def ocrErrorBaseMsg : Text := "Ошибка обработки изображения. ".toList

/-- Reply string at `src/bot2.py:196` + `198` (the `FileNotFoundError` special case). -/
def ocrErrorTesseractMsg : Text :=
  ("Ошибка обработки изображения. "
    ++ "Убедитесь, что Tesseract установлен и путь указан в TESSERACT_CMD").toList

/-- Reply string at `src/bot2.py:193`: the fallback used when the trimmed output is
empty (`text.strip() or "..."`). -/
def ocrEmptyMsg : Text := "Не удалось распознать текст на фото".toList

/-- Embedding of `ocr_from_photo` as a function of the engine outcome:
returns the stripped text, the could-not-recognize fallback when the
stripped text is empty, or the error string of the caught exception. -/
def ocr_from_photo : OcrOutcome → Text
  | OcrOutcome.ok raw => if pyStrip raw = [] then ocrEmptyMsg else pyStrip raw
  | OcrOutcome.fileNotFound => ocrErrorTesseractMsg
  | OcrOutcome.badImage => ocrErrorBaseMsg

/-! ### Oracles for external calls -/

/-- Outcomes of the external calls a `handle_text` run can make.
`generate_summary` catches every exception internally
(`src/bot2.py:146`) so it is modelled by its result string only;
`search_info` and `solve_math_problem` catch only network errors, so a
run of either may also end in an uncaught exception (the `Raises`
flags); the SQLite calls may raise (`Ok` flags false). -/
structure TextOracle where
  summaryResult : Text
  insertOk : Bool
  searchRaises : Bool
  searchResult : Text
  selectOk : Bool
  mathRaises : Bool
  mathResult : Text

/-- Outcomes of the external calls a `handle_photo_message` run can
make: the download (`get_file`/`download_file`), the OCR engine, the
SQLite insert, and the math provider. -/
structure PhotoOracle where
  downloadOk : Bool
  ocr : OcrOutcome
  insertOk : Bool
  mathRaises : Bool
  mathResult : Text

/-! ### Handlers -/

/-- Embedding of `handle_photo_message` (`src/bot2.py:275`–`316`), translated branch
by branch.  The guard replies with a hint and returns before the
`try`/`finally` when no photo action is pending.  Inside the `try`: a
download failure jumps to the `except` (generic reply) — the temporary
file is not removed; an OCR result containing `"Ошибка"` is echoed and
the file is removed; otherwise the note insert and the math call happen,
and any uncaught exception in them skips the `os.remove` at
`src/bot2.py:311` (it is inside the `try`, not in the `finally`).  The
`finally` always pops the pending state. -/
def handle_photo_message (o : PhotoOracle) (st : BotState) (uid : Nat) : StepResult :=
  if st.states uid = some Tag.photo then
    if o.downloadOk then
      let text := ocr_from_photo o.ocr
      if containsSub oshibka text then
        { st := { st with states := popState st.states uid },
          replies := [processingPhotoMsg, text],
          calls := [ProviderCall.ocrCall], fileRemoved := true }
      else if o.insertOk then
        if o.mathRaises then
          { st := { st with states := popState st.states uid,
                            notes := st.notes ++ [⟨uid, photoTopic, text⟩] },
            replies := [processingPhotoMsg, recognizedTextMsg text, photoGenericErrorMsg],
            calls := [ProviderCall.ocrCall, ProviderCall.mathCall text],
            fileRemoved := false }
        else
          { st := { st with states := popState st.states uid,
                            notes := st.notes ++ [⟨uid, photoTopic, text⟩] },
            replies := [processingPhotoMsg, recognizedTextMsg text, o.mathResult],
            calls := [ProviderCall.ocrCall, ProviderCall.mathCall text],
            fileRemoved := true }
      else
        { st := { st with states := popState st.states uid },
          replies := [processingPhotoMsg, recognizedTextMsg text, photoGenericErrorMsg],
          calls := [ProviderCall.ocrCall], fileRemoved := false }
    else
      { st := { st with states := popState st.states uid },
        replies := [processingPhotoMsg, photoGenericErrorMsg],
        calls := [], fileRemoved := false }
  else
    { st := st, replies := [photoStateHintMsg], calls := [], fileRemoved := false }

/-- Embedding of `handle_text` (`src/bot2.py:319`–`387`), translated branch by
branch.  No pending state: hint, no mutation.  Pending `"photo"`: none
of the `if`/`elif` arms match and the body falls through doing nothing.
In every other arm the state is popped on success, and the outer
`except` (generic reply, pop) models an uncaught exception from the
SQLite calls or from `search_info`/`solve_math_problem`; in the
`show_notes_list` arm `int(...)` is tried first (`ValueError` → targeted
message), the note list is re-fetched fresh, and the inner `finally`
pops the state in all three cases. -/
def handle_text (o : TextOracle) (st : BotState) (uid : Nat) (txt : Text) : StepResult :=
  match st.states uid with
  | none => { st := st, replies := [hintMenuMsg], calls := [], fileRemoved := false }
  | some Tag.summary =>
      let summary := o.summaryResult
      if o.insertOk then
        { st := { st with states := popState st.states uid,
                          notes := st.notes ++ [⟨uid, txt, summary⟩] },
          replies := summaryWaitMsg :: sendLong summary,
          calls := [ProviderCall.summaryCall txt], fileRemoved := false }
      else
        { st := { st with states := popState st.states uid },
          replies := [summaryWaitMsg, genericErrorMsg],
          calls := [ProviderCall.summaryCall txt], fileRemoved := false }
  | some Tag.search =>
      if o.searchRaises then
        { st := { st with states := popState st.states uid },
          replies := [searchWaitMsg, genericErrorMsg],
          calls := [ProviderCall.searchCall txt], fileRemoved := false }
      else
        { st := { st with states := popState st.states uid },
          replies := [searchWaitMsg, o.searchResult],
          calls := [ProviderCall.searchCall txt], fileRemoved := false }
  | some Tag.photo =>
      { st := st, replies := [], calls := [], fileRemoved := false }
  | some Tag.show_notes_list =>
      match parseIntPy txt with
      | none =>
          { st := { st with states := popState st.states uid },
            replies := [enterNumberMsg], calls := [], fileRemoved := false }
      | some k =>
          if o.selectOk then
            let notes := notesFor uid st.notes
            let idx : Int := k - 1
            if 0 ≤ idx ∧ idx < (notes.length : Int) then
              let note := notes.getD idx.toNat ⟨0, [], []⟩
              { st := { st with states := popState st.states uid },
                replies :=
                  if note.content.length > 4000 then chunkText note.content
                  else [noteHeaderMsg note.topic note.content],
                calls := [], fileRemoved := false }
            else
              { st := { st with states := popState st.states uid },
                replies := [invalidIndexMsg], calls := [], fileRemoved := false }
          else
            { st := { st with states := popState st.states uid },
              replies := [genericErrorMsg], calls := [], fileRemoved := false }
  | some Tag.calculator =>
      if o.mathRaises then
        { st := { st with states := popState st.states uid },
          replies := [calcWaitMsg, genericErrorMsg],
          calls := [ProviderCall.mathCall txt], fileRemoved := false }
      else
        { st := { st with states := popState st.states uid },
          replies := [calcWaitMsg, o.mathResult],
          calls := [ProviderCall.mathCall txt], fileRemoved := false }

/-- Embedding of `handle_summary` (`src/bot2.py:223`–`227`): set the pending tag,
prompt. -/
def handle_summary (st : BotState) (uid : Nat) : StepResult :=
  { st := { st with states := setState st.states uid Tag.summary },
    replies := ["📖 Введите тему для конспекта:".toList],
    calls := [], fileRemoved := false }

/-- Embedding of `handle_search` (`src/bot2.py:230`–`234`). -/
def handle_search (st : BotState) (uid : Nat) : StepResult :=
  { st := { st with states := setState st.states uid Tag.search },
    replies := ["🔎 Что вас интересует? Введите запрос:".toList],
    calls := [], fileRemoved := false }

/-- Embedding of `handle_photo` (`src/bot2.py:237`–`241`): the menu handler that arms
the photo action. -/
def handle_photo (st : BotState) (uid : Nat) : StepResult :=
  { st := { st with states := setState st.states uid Tag.photo },
    replies := ["📸 Отправьте фото с задачей:".toList],
    calls := [], fileRemoved := false }

/-- Embedding of `handle_calculator` (`src/bot2.py:268`–`272`). -/
def handle_calculator (st : BotState) (uid : Nat) : StepResult :=
  { st := { st with states := setState st.states uid Tag.calculator },
    replies := ["🧮 Введите математическое выражение или задачу:".toList],
    calls := [], fileRemoved := false }

/-- Decimal rendering of a note's 1-based position in the listing. -/
def natText (n : Nat) : Text := (toString n).toList

/-- The listing lines built by the `enumerate(notes, 1)` loop at
`src/bot2.py:258`–`259`. -/
def notesLines (i : Nat) : List Note → Text
  | [] => []
  | n :: rest => natText i ++ ". ".toList ++ n.topic ++ "\n".toList ++ notesLines (i + 1) rest

/-- The single listing reply of `handle_notes` (`src/bot2.py:257`–`262`). -/
def notesListing (notes : List Note) : Text :=
  "📚 Ваши конспекты:\n\n".toList ++ notesLines 1 notes
    ++ "\nОтправьте номер конспекта для просмотра:".toList

/-- Embedding of `handle_notes` (`src/bot2.py:244`–`265`): fetch the user's notes; a
failed select replies with the load error (state untouched); zero notes
reply with the empty message and return without a transition; otherwise
list the topics and set the `show_notes_list` tag. -/
def handle_notes (selectOk : Bool) (st : BotState) (uid : Nat) : StepResult :=
  if selectOk then
    let ns := notesFor uid st.notes
    if ns.isEmpty then
      { st := st, replies := [noNotesMsg], calls := [], fileRemoved := false }
    else
      { st := { st with states := setState st.states uid Tag.show_notes_list },
        replies := [notesListing ns], calls := [], fileRemoved := false }
  else
    { st := st, replies := [notesLoadErrorMsg], calls := [], fileRemoved := false }

/-! ### `/start` and the inactivity scheduler -/

/-- Embedding of `INSERT OR IGNORE INTO users` (`src/bot2.py:117`): appends a fresh
row unless a row with this primary key exists. -/
def insertOrIgnoreUser (users : List (Nat × Option Int)) (uid : Nat) (now : Int) :
    List (Nat × Option Int) :=
  if users.any (fun p => decide (p.1 = uid)) then users else users ++ [(uid, some now)]

/-- Embedding of `start_cmd` (`src/bot2.py:111`–`127`): upsert the user row (a SQLite
failure is caught and leaves the table unchanged), then greet.  Neither
`user_states` nor `summaries` is touched. -/
def start_cmd (dbOk : Bool) (now : Int) (st : BotState) (uid : Nat) : StepResult :=
  { st := { st with users := if dbOk then insertOrIgnoreUser st.users uid now else st.users },
    replies := [greetingMsg], calls := [], fileRemoved := false }

/-- Value of `timedelta(days=3)` in seconds. -/
def threeDays : Int := 259200

/-- The per-row body of the `inactivity_check` loop
(`src/bot2.py:398`–`413`): rows with NULL `last_active` are skipped; an
eligible row is updated to `now` exactly when the reminder delivery
succeeded, and left unchanged on a delivery failure (`except: pass`). -/
def inactivityStep (now : Int) (delivered : Nat → Bool) (row : Nat × Option Int) :
    Nat × Option Int :=
  match row.2 with
  | none => row
  | some t =>
      if now - t > threeDays ∧ delivered row.1 = true then (row.1, some now) else row

/-- Embedding of `inactivity_check` over the whole `users` table. -/
def inactivity_check (now : Int) (delivered : Nat → Bool)
    (users : List (Nat × Option Int)) : List (Nat × Option Int) :=
  users.map (inactivityStep now delivered)

/-- The users for whom a reminder send is attempted in a tick: exactly
those whose non-NULL `last_active` is more than three days old. -/
def inactivityAttempts (now : Int) (users : List (Nat × Option Int)) : List Nat :=
  (users.filter (fun row =>
    match row.2 with
    | none => false
    | some t => decide (now - t > threeDays))).map Prod.fst

/-! ### The dispatcher (aiogram handler registration order,
`src/bot2.py:111`, `223`, `230`, `237`, `244`, `268`, `275`, `319`) -/

/-- The five keyboard labels (`src/bot2.py:101`–`105`). -/
def label_summary : Text := "📝 Сделать конспект".toList

/-- Keyboard label for web search. -/
def label_search : Text := "🔍 Найти информацию".toList

/-- Keyboard label for photo solving. -/
def label_photo : Text := "🖼️ Решить по фото".toList

/-- Keyboard label for the note listing. -/
def label_notes : Text := "📚 Мои конспекты".toList

/-- Keyboard label for the formula calculator. -/
def label_calc : Text := "🧮 Калькулятор формул".toList

/-- The five labels in keyboard order. -/
def menuLabels : List Text :=
  [label_summary, label_search, label_photo, label_notes, label_calc]

/-- Embedding of `Command("start")`: the text is `/start` alone or followed by
arguments. -/
def isStartCmd (t : Text) : Bool :=
  t == "/start".toList || startsWith "/start ".toList t

/-- An inbound event: a text message or a photo message. -/
inductive Event
  | textMsg (t : Text)
  | photoMsg

/-- Outcomes of the external calls of one dispatched event. -/
structure Oracles where
  dbOk : Bool
  now : Int
  text : TextOracle
  photo : PhotoOracle
  selectOk : Bool

/-- The aiogram dispatcher: handlers are tried in registration order, so
a text equal to a menu label is consumed by that label's handler and
never reaches `handle_text`; photos go to `handle_photo_message`. -/
def dispatch (o : Oracles) (st : BotState) (uid : Nat) : Event → StepResult
  | Event.photoMsg => handle_photo_message o.photo st uid
  | Event.textMsg t =>
      if isStartCmd t then start_cmd o.dbOk o.now st uid
      else if t = label_summary then handle_summary st uid
      else if t = label_search then handle_search st uid
      else if t = label_photo then handle_photo st uid
      else if t = label_notes then handle_notes o.selectOk st uid
      else if t = label_calc then handle_calculator st uid
      else handle_text o.text st uid t

/-! ### Helper lemmas -/

@[simp]
theorem popState_self (f : Nat → Option Tag) (uid : Nat) : popState f uid uid = none := by
  simp [popState]

@[simp]
theorem setState_self (f : Nat → Option Tag) (uid : Nat) (t : Tag) :
    setState f uid t uid = some t := by
  simp [setState]

theorem chunkAux_flatten (fuel : Nat) (s : Text) (h : s.length ≤ fuel) :
    (chunkAux fuel s).flatten = s := by
  induction fuel generalizing s with
  | zero =>
      cases s with
      | nil => simp [chunkAux]
      | cons c r => simp at h
  | succ n ih =>
      cases s with
      | nil => simp [chunkAux]
      | cons c r =>
          have hlen : ((c :: r).drop 4000).length ≤ n := by
            simp [List.length_drop] at h ⊢
            omega
          have hstep : chunkAux (n + 1) (c :: r) =
              (c :: r).take 4000 :: chunkAux n ((c :: r).drop 4000) := rfl
          rw [hstep, List.flatten_cons, ih _ hlen, List.take_append_drop]

theorem chunkAux_le (fuel : Nat) (s : Text) (h : s.length ≤ fuel) :
    ∀ c ∈ chunkAux fuel s, c.length ≤ 4000 := by
  induction fuel generalizing s with
  | zero =>
      cases s with
      | nil => simp [chunkAux]
      | cons c r => simp at h
  | succ n ih =>
      cases s with
      | nil => simp [chunkAux]
      | cons c r =>
          intro d hd
          have hlen : ((c :: r).drop 4000).length ≤ n := by
            simp [List.length_drop] at h ⊢
            omega
          simp only [chunkAux, List.mem_cons] at hd
          rcases hd with h1 | h2
          · subst h1
            simp [List.length_take]
          · exact ih _ hlen _ h2

theorem chunkAux_length (fuel : Nat) (s : Text) (h : s.length ≤ fuel) :
    (chunkAux fuel s).length = (s.length + 3999) / 4000 := by
  induction fuel generalizing s with
  | zero =>
      cases s with
      | nil => simp [chunkAux]
      | cons c r => simp at h
  | succ n ih =>
      cases s with
      | nil => simp [chunkAux]
      | cons c r =>
          have hlen : ((c :: r).drop 4000).length ≤ n := by
            simp [List.length_drop] at h ⊢
            omega
          have hpos : 0 < (c :: r).length := by simp
          simp only [chunkAux, List.length_cons, ih _ hlen, List.length_drop]
          omega

/-- Concatenating the chunks gives back the original body. -/
theorem chunkText_flatten (s : Text) : (chunkText s).flatten = s :=
  chunkAux_flatten s.length s le_rfl

/-- Every chunk has at most 4000 characters. -/
theorem chunkText_le (s : Text) : ∀ c ∈ chunkText s, c.length ≤ 4000 :=
  chunkAux_le s.length s le_rfl

/-- There are exactly `⌈length / 4000⌉` chunks. -/
theorem chunkText_length (s : Text) : (chunkText s).length = (s.length + 3999) / 4000 :=
  chunkAux_length s.length s le_rfl

/-- Lemma: `handle_text` pops the pending entry whenever a text-consuming tag is
pending, over every oracle outcome. -/
theorem handle_text_clears (o : TextOracle) (st : BotState) (uid : Nat) (txt : Text)
    (tag : Tag) (h : st.states uid = some tag) (hne : tag ≠ Tag.photo) :
    (handle_text o st uid txt).st.states uid = none := by
  cases tag with
  | photo => exact absurd rfl hne
  | summary =>
      by_cases hi : o.insertOk <;> simp [handle_text, h, hi]
  | search =>
      by_cases hs : o.searchRaises <;> simp [handle_text, h, hs]
  | calculator =>
      by_cases hm : o.mathRaises <;> simp [handle_text, h, hm]
  | show_notes_list =>
      cases hp : parseIntPy txt with
      | none => simp [handle_text, h, hp]
      | some k =>
          by_cases hs : o.selectOk
          · simp only [handle_text, h, hp, hs, if_true]
            split <;> simp
          · simp [handle_text, h, hp, hs]

/-- Lemma: `handle_photo_message` pops the pending entry whenever the photo tag
is pending, over every oracle outcome. -/
theorem handle_photo_clears (po : PhotoOracle) (st : BotState) (uid : Nat)
    (h : st.states uid = some Tag.photo) :
    (handle_photo_message po st uid).st.states uid = none := by
  by_cases hdl : po.downloadOk
  · by_cases hc : containsSub oshibka (ocr_from_photo po.ocr)
    · simp [handle_photo_message, h, hdl, hc]
    · by_cases hi : po.insertOk
      · by_cases hm : po.mathRaises <;> simp [handle_photo_message, h, hdl, hc, hi, hm]
      · simp [handle_photo_message, h, hdl, hc, hi]
  · simp [handle_photo_message, h, hdl]

/-! ### Concrete demonstration values shared by the witnesses -/

/-- A text oracle in which every external call succeeds. -/
def demoTextOracle : TextOracle := ⟨[], true, false, [], true, false, []⟩

/-- A photo oracle: download succeeds, the OCR engine reads `2+2`, the
insert and the math call succeed. -/
def demoPhotoOracle : PhotoOracle := ⟨true, OcrOutcome.ok "2+2".toList, true, false, []⟩

/-- One user (id 0) with a pending summary action, no notes, no rows. -/
def demoState : BotState :=
  ⟨fun u => if u = 0 then some Tag.summary else none, [], []⟩

/-- One user (id 0) with a pending photo action. -/
def demoPhotoState : BotState :=
  ⟨fun u => if u = 0 then some Tag.photo else none, [], []⟩

/-- One user (id 0) in the `show_notes_list` state with one stored note. -/
def demoSnlState : BotState :=
  ⟨fun u => if u = 0 then some Tag.show_notes_list else none,
   [⟨0, "Тема".toList, "Текст".toList⟩], []⟩

/-- A bot state with no pending actions, no notes and no user rows. -/
def emptyDemoState : BotState := ⟨fun _ => none, [], []⟩

/-- A combined oracle in which every external call succeeds. -/
def demoOracles : Oracles := ⟨true, 0, demoTextOracle, demoPhotoOracle, true⟩

/-! ### Claims -/

/-- Claim C1: for every user and every pending-action tag in {summary,
search, calculator, show_notes_list, photo}, after the dispatcher
finishes handling the follow-up message — whether the handler succeeds,
the provider returns an error result, or an unexpected exception is
raised — the pending-action entry for that user is absent.  The
follow-up message for the photo tag is a photo; for the other four tags
it is a text message. -/
theorem C1_pending_cleared (o : TextOracle) (po : PhotoOracle) (st : BotState)
    (uid : Nat) (txt : Text) (tag : Tag) (h : st.states uid = some tag) :
    (tag ≠ Tag.photo → (handle_text o st uid txt).st.states uid = none) ∧
    (tag = Tag.photo → (handle_photo_message po st uid).st.states uid = none) := by
  constructor
  · intro hne
    exact handle_text_clears o st uid txt tag h hne
  · intro hph
    subst hph
    exact handle_photo_clears po st uid h

/-- Witness for C1 at a concrete state with a pending summary action. -/
theorem C1_pending_cleared_witness :
    demoState.states 0 = some Tag.summary ∧
    ((Tag.summary ≠ Tag.photo →
        (handle_text demoTextOracle demoState 0 "тема".toList).st.states 0 = none) ∧
     (Tag.summary = Tag.photo →
        (handle_photo_message demoPhotoOracle demoState 0).st.states 0 = none)) :=
  ⟨by decide,
   C1_pending_cleared demoTextOracle demoPhotoOracle demoState 0 "тема".toList
     Tag.summary (by decide)⟩

/-- Claim C2: every reply body of length `L > 4000` (a generated summary
— the `sendLong` path — or stored note content on replay) is sent as
exactly `⌈L / 4000⌉` ordered chunks, each of length at most 4000, whose
concatenation equals the original body. -/
theorem C2_chunking (s : Text) (h : s.length > 4000) :
    sendLong s = chunkText s ∧
    (chunkText s).length = (s.length + 4000 - 1) / 4000 ∧
    (∀ c ∈ chunkText s, c.length ≤ 4000) ∧
    (chunkText s).flatten = s := by
  refine ⟨?_, ?_, chunkText_le s, chunkText_flatten s⟩
  · simp [sendLong, h]
  · simpa using chunkText_length s

/-- Witness for C2 on a 4001-character body. -/
theorem C2_chunking_witness :
    (List.replicate 4001 'a').length > 4000 ∧
    (sendLong (List.replicate 4001 'a') = chunkText (List.replicate 4001 'a') ∧
     (chunkText (List.replicate 4001 'a')).length =
       ((List.replicate 4001 'a').length + 4000 - 1) / 4000 ∧
     (∀ c ∈ chunkText (List.replicate 4001 'a'), c.length ≤ 4000) ∧
     (chunkText (List.replicate 4001 'a')).flatten = List.replicate 4001 'a') :=
  ⟨by rw [List.length_replicate]; omega,
   C2_chunking (List.replicate 4001 'a') (by rw [List.length_replicate]; omega)⟩

/-- The user-input-error reply class of the note-selection flow: the
out-of-range reply and the not-a-number reply (`src/bot2.py:372` and
`src/bot2.py:374`). -/
def isInputErrorReply (rs : List Text) : Prop :=
  rs = [invalidIndexMsg] ∨ rs = [enterNumberMsg]

/-- Claim C3: while `show_notes_list` is pending, a text parsing as an
integer `k` with `1 ≤ k ≤ N` replies with note `k`'s content (notes in
insertion order from a fresh fetch, `notesFor`); `k = 0`, `k = N + 1`
(any out-of-range `k`) and non-numeric input all produce a reply of the
same user-input-error class; the pending state is cleared in every
case. -/
theorem C3_note_selection (o : TextOracle) (st : BotState) (uid : Nat) (txt : Text)
    (hstate : st.states uid = some Tag.show_notes_list)
    (hsel : o.selectOk = true) :
    (handle_text o st uid txt).st.states uid = none ∧
    (∀ k : Int, parseIntPy txt = some k → 1 ≤ k →
      k ≤ ((notesFor uid st.notes).length : Int) →
      ∃ a b : Text, (handle_text o st uid txt).replies.flatten =
        a ++ ((notesFor uid st.notes).getD (k - 1).toNat ⟨0, [], []⟩).content ++ b) ∧
    (∀ k : Int, parseIntPy txt = some k →
      (k < 1 ∨ ((notesFor uid st.notes).length : Int) < k) →
      isInputErrorReply (handle_text o st uid txt).replies) ∧
    (parseIntPy txt = none → isInputErrorReply (handle_text o st uid txt).replies) := by
  refine ⟨handle_text_clears o st uid txt _ hstate (by simp), ?_, ?_, ?_⟩
  · intro k hp h1 h2
    have hcond : 0 ≤ k - 1 ∧ k - 1 < ((notesFor uid st.notes).length : Int) := by omega
    simp only [handle_text, hstate, hp, hsel, if_true, if_pos hcond]
    by_cases hlen :
        ((notesFor uid st.notes).getD (k - 1).toNat ⟨0, [], []⟩).content.length > 4000
    · refine ⟨[], [], ?_⟩
      rw [if_pos hlen, chunkText_flatten]
      simp
    · refine ⟨"📘 Конспект: ".toList
          ++ ((notesFor uid st.notes).getD (k - 1).toNat ⟨0, [], []⟩).topic
          ++ "\n\n".toList, [], ?_⟩
      rw [if_neg hlen]
      simp [noteHeaderMsg]
  · intro k hp hout
    have hcond : ¬ (0 ≤ k - 1 ∧ k - 1 < ((notesFor uid st.notes).length : Int)) := by omega
    simp only [handle_text, hstate, hp, hsel, if_true, if_neg hcond]
    exact Or.inl rfl
  · intro hp
    simp only [handle_text, hstate, hp]
    exact Or.inr rfl

/-- Witness for C3: one stored note, input "1". -/
theorem C3_note_selection_witness :
    demoSnlState.states 0 = some Tag.show_notes_list ∧
    demoTextOracle.selectOk = true ∧
    (handle_text demoTextOracle demoSnlState 0 "1".toList).st.states 0 = none :=
  ⟨by decide, rfl,
   (C3_note_selection demoTextOracle demoSnlState 0 "1".toList (by decide) rfl).1⟩

/-- Claim C4 counterexample: extraction succeeds (the OCR engine returns
the text `"Ошибка"`), every other external call succeeds, yet no Note is
persisted and the math provider is never invoked — the handler
classifies errors by the substring test `"Ошибка" in text`
(`src/bot2.py:294`), so "a Note is persisted exactly when extraction
succeeded" is false at this input. -/
theorem C4_counterexample :
    (handle_photo_message ⟨true, OcrOutcome.ok "Ошибка".toList, true, false, []⟩
        demoPhotoState 0).st.notes = [] ∧
    (handle_photo_message ⟨true, OcrOutcome.ok "Ошибка".toList, true, false, []⟩
        demoPhotoState 0).calls = [ProviderCall.ocrCall] := by
  constructor <;> rfl

/-- Claim C4 amended: when a photo arrives while the photo action is
pending (and the download, the insert and the math call raise nothing):
if the OCR result text contains the substring `"Ошибка"`, the bot
replies with that text and stops — no Note, no math call; otherwise a
Note with topic "Задача с фото" and content equal to the OCR result
text is persisted and the math provider is invoked on that text.  A
Note is persisted exactly when the result text does not contain
`"Ошибка"` — not exactly when extraction succeeded, since a successful
extraction whose text contains `"Ошибка"` is treated as an error. -/
theorem C4_amended (po : PhotoOracle) (st : BotState) (uid : Nat)
    (h : st.states uid = some Tag.photo) (hdl : po.downloadOk = true)
    (hins : po.insertOk = true) (hmath : po.mathRaises = false) :
    (containsSub oshibka (ocr_from_photo po.ocr) = true →
      (handle_photo_message po st uid).replies =
        [processingPhotoMsg, ocr_from_photo po.ocr] ∧
      (handle_photo_message po st uid).st.notes = st.notes ∧
      (handle_photo_message po st uid).calls = [ProviderCall.ocrCall]) ∧
    (containsSub oshibka (ocr_from_photo po.ocr) = false →
      (handle_photo_message po st uid).st.notes =
        st.notes ++ [⟨uid, photoTopic, ocr_from_photo po.ocr⟩] ∧
      ProviderCall.mathCall (ocr_from_photo po.ocr) ∈
        (handle_photo_message po st uid).calls) := by
  constructor
  · intro hc
    simp [handle_photo_message, h, hdl, hc]
  · intro hc
    simp [handle_photo_message, h, hdl, hc, hins, hmath]

/-- Witness for C4 amended at a photo whose OCR text is `2+2`. -/
theorem C4_amended_witness :
    demoPhotoState.states 0 = some Tag.photo ∧
    demoPhotoOracle.downloadOk = true ∧
    demoPhotoOracle.insertOk = true ∧
    demoPhotoOracle.mathRaises = false ∧
    (containsSub oshibka (ocr_from_photo demoPhotoOracle.ocr) = false →
      (handle_photo_message demoPhotoOracle demoPhotoState 0).st.notes =
        demoPhotoState.notes ++ [⟨0, photoTopic, ocr_from_photo demoPhotoOracle.ocr⟩] ∧
      ProviderCall.mathCall (ocr_from_photo demoPhotoOracle.ocr) ∈
        (handle_photo_message demoPhotoOracle demoPhotoState 0).calls) :=
  ⟨by decide, rfl, rfl, rfl,
   (C4_amended demoPhotoOracle demoPhotoState 0 (by decide) rfl rfl rfl).2⟩

/-- Claim C5 counterexample: the photo action is pending, the download
and the OCR succeed, but the note insert raises — the handler jumps to
its `except` clause before reaching the `os.remove` at
`src/bot2.py:311`, so the temporary file is not deleted on this failure
path, contradicting "deleted unconditionally ... (persistence
error)". -/
theorem C5_counterexample :
    (handle_photo_message ⟨true, OcrOutcome.ok "2+2".toList, false, false, []⟩
        demoPhotoState 0).fileRemoved = false := by
  rfl

/-- Claim C5 amended: given a pending photo action and a successful
download, the temporary file is deleted exactly when the run reaches the
`os.remove` inside the `try` block: on the OCR-error-reply path and on
the path where the insert and the math call raise nothing (a
math-provider *error result* still deletes, since `solve_math_problem`
returns error strings instead of raising).  It is not deleted when the
insert or the math call raises, nor when the download fails, because the
removal is inside the `try` block rather than in the `finally`. -/
theorem C5_amended (po : PhotoOracle) (st : BotState) (uid : Nat)
    (h : st.states uid = some Tag.photo) (hdl : po.downloadOk = true) :
    (handle_photo_message po st uid).fileRemoved = true ↔
      (containsSub oshibka (ocr_from_photo po.ocr) = true ∨
        (po.insertOk = true ∧ po.mathRaises = false)) := by
  by_cases hc : containsSub oshibka (ocr_from_photo po.ocr)
  · simp [handle_photo_message, h, hdl, hc]
  · by_cases hi : po.insertOk
    · by_cases hm : po.mathRaises <;>
        simp [handle_photo_message, h, hdl, hc, hi, hm]
    · simp [handle_photo_message, h, hdl, hc, hi]

/-- Witness for C5 amended on the all-successful run. -/
theorem C5_amended_witness :
    demoPhotoState.states 0 = some Tag.photo ∧
    demoPhotoOracle.downloadOk = true ∧
    ((handle_photo_message demoPhotoOracle demoPhotoState 0).fileRemoved = true ↔
      (containsSub oshibka (ocr_from_photo demoPhotoOracle.ocr) = true ∨
        (demoPhotoOracle.insertOk = true ∧ demoPhotoOracle.mathRaises = false))) :=
  ⟨by decide, rfl, C5_amended demoPhotoOracle demoPhotoState 0 (by decide) rfl⟩

/-- Claim C6 counterexample: a user row (id 5, last_active 7) already
exists; `/start` at time 100 leaves the row — and its `last_active` —
unchanged, because the insert is `INSERT OR IGNORE`
(`src/bot2.py:117`).  So "/start mutates the row's last_active
timestamp ... including when the row already exists" is false. -/
theorem C6_counterexample :
    (start_cmd true 100 ⟨fun _ => none, [], [(5, some 7)]⟩ 5).st.users = [(5, some 7)] ∧
    (start_cmd true 100 ⟨fun _ => none, [], [(5, some 7)]⟩ 5).st.users ≠ [(5, some 100)] := by
  constructor <;> decide

/-- Claim C6 amended: handling `/start` creates the User row with
`last_active` set to the current time on the first interaction
(idempotent `INSERT OR IGNORE`); when the row already exists, `/start`
leaves the whole table — in particular the row's `last_active` —
unchanged.  `last_active` is only mutated later by delivered inactivity
reminders. -/
theorem C6_amended (st : BotState) (uid : Nat) (now : Int) :
    (st.users.any (fun p => decide (p.1 = uid)) = false →
      (start_cmd true now st uid).st.users = st.users ++ [(uid, some now)]) ∧
    (st.users.any (fun p => decide (p.1 = uid)) = true →
      (start_cmd true now st uid).st.users = st.users) := by
  constructor <;> intro h <;> simp [start_cmd, insertOrIgnoreUser, h]

/-- Witness for C6 amended: first interaction of user 0. -/
theorem C6_amended_witness :
    (emptyDemoState.users.any (fun p => decide (p.1 = 0)) = false) ∧
    (start_cmd true 42 emptyDemoState 0).st.users = emptyDemoState.users ++ [(0, some 42)] :=
  ⟨by decide, (C6_amended emptyDemoState 0 42).1 (by decide)⟩

/-- Claim C7: on a scheduler tick, every user whose `last_active` is
more than 3 days in the past gets a reminder attempt; on delivery
success the row becomes `now`, on delivery failure it is unchanged (so
the user is retried on later ticks); rows at or within the threshold are
not modified. -/
theorem C7_inactivity (now : Int) (delivered : Nat → Bool)
    (users : List (Nat × Option Int)) (i : Nat) (uid : Nat) (t : Int)
    (h : users[i]? = some (uid, some t)) :
    (now - t > threeDays →
      uid ∈ inactivityAttempts now users ∧
      (delivered uid = true →
        (inactivity_check now delivered users)[i]? = some (uid, some now)) ∧
      (delivered uid = false →
        (inactivity_check now delivered users)[i]? = some (uid, some t))) ∧
    (¬ now - t > threeDays →
      (inactivity_check now delivered users)[i]? = some (uid, some t)) := by
  have hmap : (inactivity_check now delivered users)[i]? =
      some (inactivityStep now delivered (uid, some t)) := by
    rw [inactivity_check, List.getElem?_map, h, Option.map_some']
  constructor
  · intro hgt
    refine ⟨?_, ?_, ?_⟩
    · have hmem : (uid, some t) ∈ users := List.getElem?_mem h
      simp only [inactivityAttempts, List.mem_map, List.mem_filter]
      exact ⟨(uid, some t), ⟨hmem, by simp [hgt]⟩, rfl⟩
    · intro hdel
      rw [hmap]
      simp [inactivityStep, hgt, hdel]
    · intro hdel
      rw [hmap]
      simp [inactivityStep, hdel]
  · intro hle
    rw [hmap]
    simp [inactivityStep, hle]

/-- Witness for C7: one user 4 days (345600 s) inactive, delivery
succeeding. -/
theorem C7_inactivity_witness :
    ([(1, some 0)] : List (Nat × Option Int))[0]? = some (1, some 0) ∧
    ((345600 : Int) - 0 > threeDays →
      1 ∈ inactivityAttempts 345600 [(1, some 0)] ∧
      ((fun _ => true) 1 = true →
        (inactivity_check 345600 (fun _ => true) [(1, some 0)])[0]? = some (1, some 345600)) ∧
      ((fun _ => true) 1 = false →
        (inactivity_check 345600 (fun _ => true) [(1, some 0)])[0]? = some (1, some 0))) :=
  ⟨rfl, (C7_inactivity 345600 (fun _ => true) [(1, some 0)] 0 1 0 rfl).1⟩

/-- Claim C8: `/start` twice for the same user creates no duplicate row
(user_id stays unique), and after `/start` a User record for that user
exists with a non-NULL `last_active` (assuming the table invariant that
every existing row has a non-NULL `last_active`, which the program
maintains since rows are only ever inserted with a timestamp). -/
theorem C8_start_idempotent (st : BotState) (uid : Nat) (now now2 : Int)
    (hnodup : (st.users.map Prod.fst).Nodup)
    (hsome : ∀ p ∈ st.users, p.2.isSome = true) :
    (((start_cmd true now st uid).st.users.map Prod.fst).Nodup) ∧
    (∃ t : Int, (uid, some t) ∈ (start_cmd true now st uid).st.users) ∧
    (start_cmd true now2 (start_cmd true now st uid).st uid).st.users =
      (start_cmd true now st uid).st.users := by
  by_cases hmem : st.users.any (fun p => decide (p.1 = uid)) = true
  · obtain ⟨p, hp, hpe⟩ := List.any_eq_true.1 hmem
    have hp1 : p.1 = uid := of_decide_eq_true hpe
    obtain ⟨t, ht⟩ := Option.isSome_iff_exists.1 (hsome p hp)
    refine ⟨?_, ⟨t, ?_⟩, ?_⟩
    · simpa [start_cmd, insertOrIgnoreUser, hmem] using hnodup
    · have : p = (uid, some t) := by
        rcases p with ⟨a, b⟩
        simp only at hp1 ht
        rw [hp1, ht]
      simpa [start_cmd, insertOrIgnoreUser, hmem, ← this] using hp
    · simp [start_cmd, insertOrIgnoreUser, hmem]
  · have hnot : ∀ p ∈ st.users, p.1 ≠ uid := by
      intro p hp
      intro hcontra
      exact hmem (List.any_eq_true.2 ⟨p, hp, decide_eq_true hcontra⟩)
    have husers : (start_cmd true now st uid).st.users =
        st.users ++ [(uid, some now)] := by
      simp [start_cmd, insertOrIgnoreUser, hmem]
    refine ⟨?_, ⟨now, ?_⟩, ?_⟩
    · rw [husers, List.map_append]
      refine List.Nodup.append hnodup (by simp) ?_
      intro a ha hb
      simp only [List.map_cons, List.map_nil, List.mem_singleton] at hb
      obtain ⟨p, hp, hpa⟩ := List.mem_map.1 ha
      exact hnot p hp (by rw [hpa, hb])
    · rw [husers]
      exact List.mem_append_right _ (by simp)
    · have hmem2 : (st.users ++ [(uid, some now)]).any (fun p => decide (p.1 = uid)) = true :=
        List.any_eq_true.2 ⟨(uid, some now), List.mem_append_right _ (by simp), by simp⟩
      have hx : (start_cmd true now2 (start_cmd true now st uid).st uid).st.users =
          insertOrIgnoreUser (start_cmd true now st uid).st.users uid now2 := rfl
      rw [hx, husers]
      simp [insertOrIgnoreUser, hmem2]

/-- Witness for C8 on the empty users table. -/
theorem C8_start_idempotent_witness :
    ((emptyDemoState.users.map Prod.fst).Nodup) ∧
    (∀ p ∈ emptyDemoState.users, p.2.isSome = true) ∧
    ((((start_cmd true 1 emptyDemoState 0).st.users.map Prod.fst).Nodup) ∧
     (∃ t : Int, (0, some t) ∈ (start_cmd true 1 emptyDemoState 0).st.users) ∧
     (start_cmd true 2 (start_cmd true 1 emptyDemoState 0).st 0).st.users =
       (start_cmd true 1 emptyDemoState 0).st.users) :=
  ⟨by decide, by simp [emptyDemoState],
   C8_start_idempotent emptyDemoState 0 1 2 (by decide) (by simp [emptyDemoState])⟩

/-- Claim C9: selecting the "show notes" menu item with zero stored
notes replies with the empty-notes message and performs no state
transition — the pending entry stays absent, so the user's next free
text (any text that is not a menu label or a `/start` command) is
answered with the choose-from-menu hint and again changes nothing. -/
theorem C9_empty_notes (o : Oracles) (st : BotState) (uid : Nat)
    (hempty : notesFor uid st.notes = [])
    (habsent : st.states uid = none) :
    (handle_notes true st uid).replies = [noNotesMsg] ∧
    (handle_notes true st uid).st = st ∧
    (handle_notes true st uid).st.states uid = none ∧
    (∀ t : Text, t ∉ menuLabels → isStartCmd t = false →
      (dispatch o (handle_notes true st uid).st uid (Event.textMsg t)).replies =
        [hintMenuMsg] ∧
      (dispatch o (handle_notes true st uid).st uid (Event.textMsg t)).st =
        (handle_notes true st uid).st) := by
  have hstep : handle_notes true st uid =
      { st := st, replies := [noNotesMsg], calls := [], fileRemoved := false } := by
    simp [handle_notes, hempty]
  refine ⟨by rw [hstep], by rw [hstep], by rw [hstep]; exact habsent, ?_⟩
  intro t ht hcmd
  rw [hstep]
  simp only [menuLabels, List.mem_cons, List.mem_singleton, not_or] at ht
  obtain ⟨h1, h2, h3, h4, h5⟩ := ht
  simp [dispatch, hcmd, h1, h2, h3, h4, h5, handle_text, habsent]

/-- Witness for C9: the empty state, follow-up text "привет". -/
theorem C9_empty_notes_witness :
    notesFor 0 emptyDemoState.notes = [] ∧
    emptyDemoState.states 0 = none ∧
    (handle_notes true emptyDemoState 0).replies = [noNotesMsg] :=
  ⟨by decide, rfl, (C9_empty_notes demoOracles emptyDemoState 0 (by decide) rfl).1⟩

/-- Claim C10: a text message exactly equal to one of the five menu
labels is handled as a menu selection whatever the current pending
state: no provider is invoked on it (the calls list is empty — the text
is never passed as a summary topic, search query or calculator
expression), the pending entry is overwritten with the selected tag for
the four prompt actions, and for the notes label the numbered list is
shown and `show_notes_list` set when the user has notes (with zero
notes the handler replies with the empty-notes message and leaves the
state as it was). -/
theorem C10_menu_precedence (o : Oracles) (st : BotState) (uid : Nat) (t : Text)
    (h : t ∈ menuLabels) :
    (dispatch o st uid (Event.textMsg t)).calls = [] ∧
    (t = label_summary →
      (dispatch o st uid (Event.textMsg t)).st.states uid = some Tag.summary) ∧
    (t = label_search →
      (dispatch o st uid (Event.textMsg t)).st.states uid = some Tag.search) ∧
    (t = label_photo →
      (dispatch o st uid (Event.textMsg t)).st.states uid = some Tag.photo) ∧
    (t = label_calc →
      (dispatch o st uid (Event.textMsg t)).st.states uid = some Tag.calculator) ∧
    (t = label_notes →
      ((notesFor uid st.notes ≠ [] → o.selectOk = true →
        (dispatch o st uid (Event.textMsg t)).st.states uid = some Tag.show_notes_list) ∧
       (notesFor uid st.notes = [] → o.selectOk = true →
        (dispatch o st uid (Event.textMsg t)).st = st))) := by
  simp only [menuLabels, List.mem_cons, List.not_mem_nil, or_false] at h
  rcases h with h | h | h | h | h <;> subst h
  · have hd : dispatch o st uid (Event.textMsg label_summary) = handle_summary st uid := by
      simp [dispatch, (by decide : isStartCmd label_summary = false)]
    rw [hd]
    refine ⟨rfl, fun _ => by simp [handle_summary], ?_, ?_, ?_, ?_⟩ <;>
      (intro hfalse; exact absurd hfalse (by decide))
  · have hd : dispatch o st uid (Event.textMsg label_search) = handle_search st uid := by
      simp [dispatch, (by decide : isStartCmd label_search = false),
        (by decide : ¬ label_search = label_summary)]
    rw [hd]
    refine ⟨rfl, ?_, fun _ => by simp [handle_search], ?_, ?_, ?_⟩ <;>
      (intro hfalse; exact absurd hfalse (by decide))
  · have hd : dispatch o st uid (Event.textMsg label_photo) = handle_photo st uid := by
      simp [dispatch, (by decide : isStartCmd label_photo = false),
        (by decide : ¬ label_photo = label_summary),
        (by decide : ¬ label_photo = label_search)]
    rw [hd]
    refine ⟨rfl, ?_, ?_, fun _ => by simp [handle_photo], ?_, ?_⟩ <;>
      (intro hfalse; exact absurd hfalse (by decide))
  · have hd : dispatch o st uid (Event.textMsg label_notes) =
        handle_notes o.selectOk st uid := by
      simp [dispatch, (by decide : isStartCmd label_notes = false),
        (by decide : ¬ label_notes = label_summary),
        (by decide : ¬ label_notes = label_search),
        (by decide : ¬ label_notes = label_photo)]
    rw [hd]
    refine ⟨?_, ?_, ?_, ?_, ?_, ?_⟩
    · by_cases hsel : o.selectOk
      · by_cases hne : (notesFor uid st.notes).isEmpty <;>
          simp [handle_notes, hsel, hne]
      · simp [handle_notes, hsel]
    · intro hfalse; exact absurd hfalse (by decide)
    · intro hfalse; exact absurd hfalse (by decide)
    · intro hfalse; exact absurd hfalse (by decide)
    · intro hfalse; exact absurd hfalse (by decide)
    · intro _
      constructor
      · intro hne hsel
        have hni : (notesFor uid st.notes).isEmpty = false := by
          simpa [List.isEmpty_iff] using hne
        simp [handle_notes, hsel, hni]
      · intro hz hsel
        have hni : (notesFor uid st.notes).isEmpty = true := by
          simpa [List.isEmpty_iff] using hz
        simp [handle_notes, hsel, hni]
  · have hd : dispatch o st uid (Event.textMsg label_calc) = handle_calculator st uid := by
      simp [dispatch, (by decide : isStartCmd label_calc = false),
        (by decide : ¬ label_calc = label_summary),
        (by decide : ¬ label_calc = label_search),
        (by decide : ¬ label_calc = label_photo),
        (by decide : ¬ label_calc = label_notes)]
    rw [hd]
    refine ⟨rfl, ?_, ?_, ?_, fun _ => by simp [handle_calculator], ?_⟩ <;>
      (intro hfalse; exact absurd hfalse (by decide))

/-- Witness for C10: the summary label while a search action is
pending. -/
theorem C10_menu_precedence_witness :
    label_summary ∈ menuLabels ∧
    (dispatch demoOracles demoState 0 (Event.textMsg label_summary)).calls = [] :=
  ⟨by decide, (C10_menu_precedence demoOracles demoState 0 label_summary (by decide)).1⟩

end StudyBot
